import Mathlib

/-
Shallow embedding of `src/watcher.py` (nginx blue/green log watcher):
line parsing, the fixed-size sliding window of request outcomes, the
failover and error-rate detectors with startup suppression and alert
cooldown, and the byte-offset incremental read loop.

Python floats used for `time.time()` and the error threshold are modelled
as rationals; byte strings are modelled as `List Char` (ASCII inputs).
-/

namespace Watcher

/-- Structured record extracted from one log line
(`parse_log_line`, watcher.py lines 33-55).  `request_time` and
`upstream_response_time` stay strings exactly as in the Python dict. -/
structure LogRecord where
  pool : String
  release : String
  upstream_status : Nat
  upstream : String
  request_time : String
  upstream_response_time : String
deriving DecidableEq, Repr

/-- ASCII model of the regex class `\w` used in `pool=(\w+)`. -/
def isWordChar (c : Char) : Bool := c.isAlphanum || c = '_'

/-- ASCII model of the class `[\w\.\-]` used in `release=([\w\.\-]+)`. -/
def isRelChar (c : Char) : Bool := isWordChar c || c = '.' || c = '-'

/-- Model of the class `[\d\.:]` used in `upstream=([\d\.:]+)`. -/
def isUpstreamChar (c : Char) : Bool := c.isDigit || c = '.' || c = ':'

/-- Model of the class `[\d\.]` used in the two time fields. -/
def isNumChar (c : Char) : Bool := c.isDigit || c = '.'

/-- `litMatches lit s` is true when `lit` is an initial segment of `s`. -/
def litMatches : List Char → List Char → Bool
  | [], _ => true
  | _ :: _, [] => false
  | a :: as, b :: bs => a = b && litMatches as bs

/-- `re.search` for the patterns of `parse_log_line`: each is a literal
followed by one capture group `(cls)+`.  The leftmost position where the
literal occurs followed by at least one class character matches, and the
group captures the maximal run of class characters there. -/
def searchTok (lit : List Char) (cls : Char → Bool) : List Char → Option (List Char)
  | [] => none
  | c :: cs =>
    let run := ((c :: cs).drop lit.length).takeWhile cls
    if litMatches lit (c :: cs) && !run.isEmpty then some run
    else searchTok lit cls cs

/-- `int(...)` applied to the digit string captured by `upstream_status=(\d+)`. -/
def digitsToNat (cs : List Char) : Nat := cs.foldl (fun n c => 10 * n + (c.toNat - 48)) 0

def poolLit : List Char := "pool=".toList
def releaseLit : List Char := "release=".toList
def statusLit : List Char := "upstream_status=".toList
def upstreamLit : List Char := "upstream=".toList
def requestTimeLit : List Char := "request_time=".toList
def upstreamTimeLit : List Char := "upstream_response_time=".toList

/-- `parse_log_line` (watcher.py lines 33-55): six independent searches;
a record is produced iff both the pool and the status match succeed, the
other fields defaulting to "unknown" / "0". -/
def parse_log_line (line : List Char) : Option LogRecord :=
  let pm := searchTok poolLit isWordChar line
  let rm := searchTok releaseLit isRelChar line
  let sm := searchTok statusLit Char.isDigit line
  let um := searchTok upstreamLit isUpstreamChar line
  let rtm := searchTok requestTimeLit isNumChar line
  let utm := searchTok upstreamTimeLit isNumChar line
  match pm, sm with
  | some p, some st =>
      some { pool := String.mk p
           , release := match rm with | some x => String.mk x | none => "unknown"
           , upstream_status := digitsToNat st
           , upstream := match um with | some x => String.mk x | none => "unknown"
           , request_time := match rtm with | some x => String.mk x | none => "0"
           , upstream_response_time := match utm with | some x => String.mk x | none => "0" }
  | _, _ => none

/-- The line contains an occurrence of the literal `lit` followed by at
least one character of the class `cls`: exactly when `re.search` succeeds
for the corresponding `lit(cls+)` pattern. -/
def containsTok (lit : List Char) (cls : Char → Bool) (s : List Char) : Prop :=
  ∃ pre c rest, s = pre ++ lit ++ c :: rest ∧ cls c = true

/-- `deque(maxlen=N).append`: append on the right, evicting from the left
whatever exceeds the capacity (watcher.py line 19 / line 204). -/
def windowAppend (N : Nat) (w : List Bool) (b : Bool) : List Bool :=
  if N < (w ++ [b]).length then (w ++ [b]).drop ((w ++ [b]).length - N) else w ++ [b]

/-- The window obtained by appending a whole sequence of outcomes to an
initially empty `deque(maxlen=N)`. -/
def windowOfList (N : Nat) (xs : List Bool) : List Bool := xs.foldl (windowAppend N) []

/-- An alert handed to `send_slack_alert` by one of the two detectors. -/
inductive Alert
  | failover (fromPool toPool : String) (record : LogRecord)
  | errorRate (rate : ℚ) (errors total : Nat) (pool : Option String) (record : Option LogRecord)
deriving DecidableEq, Repr

/-- The module-level mutable state of watcher.py (lines 19-25). -/
structure WatcherState where
  request_window : List Bool
  current_pool : Option String
  last_failover_alert : ℚ
  last_error_alert : ℚ
  file_position : Nat
  last_parsed_data : Option LogRecord
  is_startup : Bool
deriving DecidableEq, Repr

/-- Initial values of the module-level state (watcher.py lines 19-25):
`last_failover_alert = 0`, `last_error_alert = 0`, empty window, no pool,
empty `last_parsed_data` dict, `is_startup = True`. -/
def initialState : WatcherState :=
  { request_window := []
  , current_pool := none
  , last_failover_alert := 0
  , last_error_alert := 0
  , file_position := 0
  , last_parsed_data := none
  , is_startup := true }

/-- `check_failover` (watcher.py lines 97-130), with `time.time()` passed
in as `now` and the dispatched alerts returned instead of printed. -/
def check_failover (cooldown now : ℚ) (parsed : LogRecord) (s : WatcherState) :
    WatcherState × List Alert :=
  match s.current_pool with
  | none =>
      ({ s with current_pool := some parsed.pool, last_parsed_data := some parsed }, [])
  | some cp =>
      if parsed.pool ≠ cp then
        if s.is_startup then
          ({ s with current_pool := some parsed.pool, last_parsed_data := some parsed }, [])
        else if now - s.last_failover_alert > cooldown then
          ({ s with current_pool := some parsed.pool, last_parsed_data := some parsed
                  , last_failover_alert := now },
           [Alert.failover cp parsed.pool parsed])
        else
          ({ s with current_pool := some parsed.pool, last_parsed_data := some parsed }, [])
      else (s, [])

/-- `error_rate = errors / total` over the current window
(watcher.py lines 140-142); `sum` of booleans is the count of `True`. -/
def errorRatio (s : WatcherState) : ℚ :=
  (s.request_window.count true : ℚ) / (s.request_window.length : ℚ)

/-- `check_error_rate` (watcher.py lines 133-174).  The third component is
the verdict printed at line 148 (`none` below the statistical floor,
otherwise whether the unrounded ratio strictly exceeds the threshold). -/
def check_error_rate (N : Nat) (threshold cooldown now : ℚ) (s : WatcherState) :
    WatcherState × List Alert × Option Bool :=
  if s.request_window.length < min 50 N then (s, [], none)
  else if errorRatio s > threshold then
    if s.is_startup then (s, [], some true)
    else if now - s.last_error_alert > cooldown then
      ({ s with last_error_alert := now },
       [Alert.errorRate (errorRatio s) (s.request_window.count true)
          s.request_window.length s.current_pool s.last_parsed_data],
       some true)
    else (s, [], some true)
  else (s, [], some false)

/-- The body of the per-line loop of `process_new_lines` for a parsed
record (watcher.py lines 192-207): failover check, window append of the
5xx outcome, then error-rate check. -/
def process_record (N : Nat) (threshold cooldown now : ℚ) (r : LogRecord) (s : WatcherState) :
    WatcherState × List Alert :=
  let f := check_failover cooldown now r s
  let is_error := decide (500 ≤ r.upstream_status ∧ r.upstream_status < 600)
  let s2 := { f.1 with request_window := windowAppend N f.1.request_window is_error }
  let e := check_error_rate N threshold cooldown now s2
  (e.1, f.2 ++ e.2.1)

/-- Processing a sequence of already-parsed records, each with the clock
value at which it is handled; alerts are concatenated in order. -/
def processRecords (N : Nat) (threshold cooldown : ℚ) :
    List (ℚ × LogRecord) → WatcherState → WatcherState × List Alert
  | [], s => (s, [])
  | e :: es, s =>
    let r := process_record N threshold cooldown e.1 e.2 s
    let rest := processRecords N threshold cooldown es r.1
    (rest.1, r.2 ++ rest.2)

/-- Python `str.strip()` whitespace set. -/
def isSpaceChar (c : Char) : Bool :=
  c = ' ' || c = '\t' || c = '\n' || c = '\x0b' || c = '\x0c' || c = '\r'

/-- Python `str.strip()`: whitespace removed from both ends. -/
def pyStrip (cs : List Char) : List Char :=
  ((cs.dropWhile isSpaceChar).reverse.dropWhile isSpaceChar).reverse

/-- Helper for `pySplitLines`; `acc` holds the current line reversed. -/
def pySplitAux : List Char → List Char → List (List Char)
  | [], acc => if acc.isEmpty then [] else [acc.reverse]
  | c :: cs, acc =>
    if c = '\n' then (acc.reverse ++ ['\n']) :: pySplitAux cs []
    else pySplitAux cs (c :: acc)

/-- Python file iteration `for line in f`: the remaining bytes split after
each newline, each piece keeping its terminator; a trailing piece with no
terminator is yielded as well. -/
def pySplitLines (cs : List Char) : List (List Char) := pySplitAux cs []

/-- One iteration of the `for line in f` loop of `process_new_lines`
(watcher.py lines 185-207): strip, skip blank, parse, process. -/
def process_line (N : Nat) (threshold cooldown now : ℚ) (line : List Char) (s : WatcherState) :
    WatcherState × List Alert :=
  let stripped := pyStrip line
  if stripped.isEmpty then (s, [])
  else
    match parse_log_line stripped with
    | none => (s, [])
    | some r => process_record N threshold cooldown now r s

/-- `process_new_lines` (watcher.py lines 177-214) on a file whose current
contents are `file`: seek to `file_position`, iterate over the remaining
bytes line by line (the unterminated trailing piece included, as Python
file iteration yields it), then commit `file_position = f.tell()`, which
is end of file. -/
def process_new_lines (N : Nat) (threshold cooldown now : ℚ) (file : List Char)
    (s : WatcherState) : WatcherState × List Alert :=
  let rest := file.drop s.file_position
  let res := (pySplitLines rest).foldl
      (fun acc line =>
        let r := process_line N threshold cooldown now line acc.1
        (r.1, acc.2 ++ r.2))
      (s, [])
  ({ res.1 with file_position := file.length }, res.2)

/-- `ERROR_THRESHOLD` (watcher.py line 14): the configured percentage
divided by 100. -/
def thresholdOfPct (pct : ℚ) : ℚ := pct / 100

/-- Outcome of the HTTP POST inside `send_slack_alert` as seen by the
caller: webhook unset, a response with some status code, or a raised
exception (timeout or transport fault). -/
inductive SinkOutcome
  | notConfigured
  | httpStatus (code : Nat)
  | raised
deriving DecidableEq, Repr

/-- What `send_slack_alert` (watcher.py lines 58-94) reports for each sink
outcome; every branch is caught and printed, nothing is re-raised. -/
inductive DeliveryReport
  | localOnly
  | delivered
  | failedHttp (code : Nat)
  | failedTransport
deriving DecidableEq, Repr

/-- `send_slack_alert` (watcher.py lines 58-94): total in the sink
outcome — the `except` clause turns any raised exception into a printed
error, and a non-200 status into a printed failure; no state is touched. -/
def send_slack_alert (sink : SinkOutcome) : DeliveryReport :=
  match sink with
  | SinkOutcome.notConfigured => DeliveryReport.localOnly
  | SinkOutcome.httpStatus code =>
      if code = 200 then DeliveryReport.delivered else DeliveryReport.failedHttp code
  | SinkOutcome.raised => DeliveryReport.failedTransport

/-- `check_failover` with the sink outcome threaded through: identical
state transitions, and each dispatched alert paired with the delivery
report `send_slack_alert` produces for it (watcher.py lines 120-123:
`send_slack_alert` is called, then `last_failover_alert = current_time`
is stamped whatever the delivery outcome was). -/
def check_failover_with_sink (sink : SinkOutcome) (cooldown now : ℚ) (parsed : LogRecord)
    (s : WatcherState) : WatcherState × List (Alert × DeliveryReport) :=
  match s.current_pool with
  | none =>
      ({ s with current_pool := some parsed.pool, last_parsed_data := some parsed }, [])
  | some cp =>
      if parsed.pool ≠ cp then
        if s.is_startup then
          ({ s with current_pool := some parsed.pool, last_parsed_data := some parsed }, [])
        else if now - s.last_failover_alert > cooldown then
          ({ s with current_pool := some parsed.pool, last_parsed_data := some parsed
                  , last_failover_alert := now },
           [(Alert.failover cp parsed.pool parsed, send_slack_alert sink)])
        else
          ({ s with current_pool := some parsed.pool, last_parsed_data := some parsed }, [])
      else (s, [])

/-- The pair (tracked pool, enrichment record) as evolved by the code: set
by the first record and by every record whose pool differs from the
tracked one, untouched otherwise. -/
def poolTrack (st : Option String × Option LogRecord) :
    List LogRecord → Option String × Option LogRecord
  | [] => st
  | r :: rs =>
    match st.1 with
    | none => poolTrack (some r.pool, some r) rs
    | some p =>
      if r.pool = p then poolTrack st rs
      else poolTrack (some r.pool, some r) rs

/-- The record used to enrich an alert's payload: the triggering record
for a failover alert, `last_parsed_data` for an error-rate alert. -/
def enrichRecord : Alert → Option LogRecord
  | Alert.failover _ _ r => some r
  | Alert.errorRate _ _ _ _ ro => ro

/-- A concrete healthy record from pool `blue`. -/
def recBlue : LogRecord :=
  { pool := "blue", release := "unknown", upstream_status := 200
  , upstream := "unknown", request_time := "0", upstream_response_time := "0" }

/-- A concrete healthy record from pool `green`. -/
def recGreen : LogRecord := { recBlue with pool := "green" }

/-- A concrete 5xx record from pool `blue`, carrying a release tag. -/
def recErr (rel : String) : LogRecord :=
  { pool := "blue", release := rel, upstream_status := 500
  , upstream := "unknown", request_time := "0", upstream_response_time := "0" }

/-- A post-startup state tracking pool `blue`. -/
def liveBlueState : WatcherState :=
  { initialState with is_startup := false, current_pool := some "blue" }

/-- A post-startup state whose window holds 50 errors (all-`true`). -/
def liveErrWindowState : WatcherState :=
  { initialState with is_startup := false, request_window := List.replicate 50 true }

/-- A state whose window already holds 50 error outcomes. -/
def fullErrWindowState : WatcherState :=
  { initialState with request_window := List.replicate 50 true }

/-- File contents ending in an unterminated line (no trailing newline). -/
def c8file1 : List Char := "pool=blue upstream_status=5".toList

/-- The same file after the missing tail `00` and the terminator arrive. -/
def c8file2 : List Char := "pool=blue upstream_status=500\n".toList

/-- Fifty same-pool error records, the last one distinguishable by its
release tag, all processed at clock 1000. -/
def c9events : List (ℚ × LogRecord) :=
  List.replicate 49 ((1000 : ℚ), recErr "first") ++ [((1000 : ℚ), recErr "last")]

lemma windowAppend_drop (N : Nat) (l : List Bool) (b : Bool) :
    windowAppend N (l.drop (l.length - N)) b = (l ++ [b]).drop (l.length + 1 - N) := by
  unfold windowAppend
  by_cases h : l.length < N
  · have h1 : l.length - N = 0 := by omega
    have h2 : l.length + 1 - N = 0 := by omega
    rw [h1, h2]
    simp only [List.drop_zero]
    rw [if_neg (by simp only [List.length_append, List.length_singleton]; omega)]
  · push_neg at h
    have hlen : (l.drop (l.length - N)).length = N := by
      rw [List.length_drop]; omega
    have hcond : N < ((l.drop (l.length - N)) ++ [b]).length := by
      simp [hlen]
    rw [if_pos hcond]
    have hdrop1 : ((l.drop (l.length - N)) ++ [b]).length - N = 1 := by
      simp [hlen]
    rw [hdrop1]
    by_cases hN : N = 0
    · subst hN
      simp
    · rw [List.drop_append_of_le_length (by rw [hlen]; omega : 1 ≤ (l.drop (l.length - N)).length)]
      rw [List.drop_drop]
      rw [List.drop_append_of_le_length (by omega : l.length + 1 - N ≤ l.length)]
      have harith : l.length - N + 1 = l.length + 1 - N := by omega
      rw [harith]

lemma windowOfList_eq_drop (N : Nat) (xs : List Bool) :
    windowOfList N xs = xs.drop (xs.length - N) := by
  induction xs using List.reverseRecOn with
  | nil => simp [windowOfList]
  | append_singleton l b ih =>
    have hfold : windowOfList N (l ++ [b]) = windowAppend N (windowOfList N l) b := by
      rw [windowOfList, windowOfList, List.foldl_append]
      rfl
    rw [hfold, ih, windowAppend_drop]
    simp

lemma check_failover_first (cd now : ℚ) (r : LogRecord) (s : WatcherState)
    (h : s.current_pool = none) :
    check_failover cd now r s =
      ({ s with current_pool := some r.pool, last_parsed_data := some r }, []) := by
  unfold check_failover
  rw [h]

lemma check_failover_same (cd now : ℚ) (r : LogRecord) (s : WatcherState) (cp : String)
    (h : s.current_pool = some cp) (he : r.pool = cp) :
    check_failover cd now r s = (s, []) := by
  unfold check_failover
  rw [h]
  simp [he]

lemma check_failover_startup (cd now : ℚ) (r : LogRecord) (s : WatcherState) (cp : String)
    (h : s.current_pool = some cp) (hne : r.pool ≠ cp) (hst : s.is_startup = true) :
    check_failover cd now r s =
      ({ s with current_pool := some r.pool, last_parsed_data := some r }, []) := by
  unfold check_failover
  rw [h]
  simp [hne, hst]

lemma check_failover_fire (cd now : ℚ) (r : LogRecord) (s : WatcherState) (cp : String)
    (h : s.current_pool = some cp) (hne : r.pool ≠ cp) (hst : s.is_startup = false)
    (hcool : now - s.last_failover_alert > cd) :
    check_failover cd now r s =
      ({ s with current_pool := some r.pool, last_parsed_data := some r
              , last_failover_alert := now },
       [Alert.failover cp r.pool r]) := by
  unfold check_failover
  rw [h]
  simp [hne, hst, hcool]

lemma check_failover_suppressed (cd now : ℚ) (r : LogRecord) (s : WatcherState) (cp : String)
    (h : s.current_pool = some cp) (hne : r.pool ≠ cp) (hst : s.is_startup = false)
    (hcool : ¬ now - s.last_failover_alert > cd) :
    check_failover cd now r s =
      ({ s with current_pool := some r.pool, last_parsed_data := some r }, []) := by
  unfold check_failover
  rw [h]
  simp [hne, hst, hcool]

lemma check_failover_pool (cd now : ℚ) (r : LogRecord) (s : WatcherState) :
    (check_failover cd now r s).1.current_pool = some r.pool := by
  unfold check_failover
  cases h : s.current_pool with
  | none => simp
  | some cp =>
    by_cases he : r.pool = cp
    · simp [he, h]
    · split_ifs <;> simp [he]

lemma check_failover_fields (cd now : ℚ) (r : LogRecord) (s : WatcherState) :
    (check_failover cd now r s).1.request_window = s.request_window
    ∧ (check_failover cd now r s).1.is_startup = s.is_startup
    ∧ (check_failover cd now r s).1.last_error_alert = s.last_error_alert
    ∧ (check_failover cd now r s).1.file_position = s.file_position := by
  unfold check_failover
  cases h : s.current_pool with
  | none => simp
  | some cp =>
    by_cases he : r.pool = cp
    · simp [he]
    · split_ifs <;> simp [he]

lemma check_failover_alert_iff (cd now : ℚ) (r : LogRecord) (s : WatcherState) (cp : String)
    (h : s.current_pool = some cp) (hne : r.pool ≠ cp) :
    (check_failover cd now r s).2 ≠ [] ↔
      (s.is_startup = false ∧ now - s.last_failover_alert > cd) := by
  unfold check_failover
  rw [h]
  split_ifs <;> simp_all

lemma check_error_rate_floor (N : Nat) (th cd now : ℚ) (s : WatcherState)
    (h : s.request_window.length < min 50 N) :
    check_error_rate N th cd now s = (s, [], none) := by
  unfold check_error_rate
  rw [if_pos h]

lemma check_error_rate_fields (N : Nat) (th cd now : ℚ) (s : WatcherState) :
    (check_error_rate N th cd now s).1.request_window = s.request_window
    ∧ (check_error_rate N th cd now s).1.current_pool = s.current_pool
    ∧ (check_error_rate N th cd now s).1.is_startup = s.is_startup
    ∧ (check_error_rate N th cd now s).1.last_parsed_data = s.last_parsed_data
    ∧ (check_error_rate N th cd now s).1.last_failover_alert = s.last_failover_alert
    ∧ (check_error_rate N th cd now s).1.file_position = s.file_position := by
  unfold check_error_rate
  split_ifs <;> simp

lemma check_error_rate_startup_silent (N : Nat) (th cd now : ℚ) (s : WatcherState)
    (hst : s.is_startup = true) :
    (check_error_rate N th cd now s).1 = s ∧ (check_error_rate N th cd now s).2.1 = [] := by
  unfold check_error_rate
  split_ifs <;> simp_all

lemma check_error_rate_fire (N : Nat) (th cd now : ℚ) (s : WatcherState)
    (hfloor : ¬ s.request_window.length < min 50 N) (hbr : errorRatio s > th)
    (hst : s.is_startup = false) (hcool : now - s.last_error_alert > cd) :
    check_error_rate N th cd now s =
      ({ s with last_error_alert := now },
       [Alert.errorRate (errorRatio s) (s.request_window.count true)
          s.request_window.length s.current_pool s.last_parsed_data],
       some true) := by
  unfold check_error_rate
  simp [hfloor, hbr, hst, hcool]

lemma check_error_rate_cooldown (N : Nat) (th cd now : ℚ) (s : WatcherState)
    (hfloor : ¬ s.request_window.length < min 50 N) (hbr : errorRatio s > th)
    (hst : s.is_startup = false) (hcool : ¬ now - s.last_error_alert > cd) :
    check_error_rate N th cd now s = (s, [], some true) := by
  unfold check_error_rate
  simp [hfloor, hbr, hst, hcool]

lemma check_failover_with_sink_fire (sink : SinkOutcome) (cd now : ℚ) (r : LogRecord)
    (s : WatcherState) (cp : String)
    (h : s.current_pool = some cp) (hne : r.pool ≠ cp) (hst : s.is_startup = false)
    (hcool : now - s.last_failover_alert > cd) :
    check_failover_with_sink sink cd now r s =
      ({ s with current_pool := some r.pool, last_parsed_data := some r
              , last_failover_alert := now },
       [(Alert.failover cp r.pool r, send_slack_alert sink)]) := by
  unfold check_failover_with_sink
  rw [h]
  simp [hne, hst, hcool]

lemma check_failover_with_sink_suppressed (sink : SinkOutcome) (cd now : ℚ) (r : LogRecord)
    (s : WatcherState) (cp : String)
    (h : s.current_pool = some cp) (hne : r.pool ≠ cp) (hst : s.is_startup = false)
    (hcool : ¬ now - s.last_failover_alert > cd) :
    check_failover_with_sink sink cd now r s =
      ({ s with current_pool := some r.pool, last_parsed_data := some r }, []) := by
  unfold check_failover_with_sink
  rw [h]
  simp [hne, hst, hcool]

lemma check_failover_startup_silent (cd now : ℚ) (r : LogRecord) (s : WatcherState)
    (hst : s.is_startup = true) :
    (check_failover cd now r s).2 = [] := by
  unfold check_failover
  cases h : s.current_pool with
  | none => simp
  | some cp =>
    by_cases he : r.pool = cp
    · simp [he]
    · simp [he, hst]

lemma check_failover_pool_lpd (cd now : ℚ) (r : LogRecord) (s : WatcherState) :
    ((check_failover cd now r s).1.current_pool,
     (check_failover cd now r s).1.last_parsed_data)
      = poolTrack (s.current_pool, s.last_parsed_data) [r] := by
  unfold check_failover poolTrack
  cases h : s.current_pool with
  | none => simp [poolTrack]
  | some cp =>
    by_cases he : r.pool = cp
    · simp [he, h, poolTrack]
    · split_ifs <;> simp [he, poolTrack]

lemma process_record_is_startup (N : Nat) (th cd now : ℚ) (r : LogRecord) (s : WatcherState) :
    (process_record N th cd now r s).1.is_startup = s.is_startup := by
  simp only [process_record]
  rw [(check_error_rate_fields _ _ _ _ _).2.2.1]
  exact (check_failover_fields cd now r s).2.1

lemma process_record_pool (N : Nat) (th cd now : ℚ) (r : LogRecord) (s : WatcherState) :
    (process_record N th cd now r s).1.current_pool = some r.pool := by
  simp only [process_record]
  rw [(check_error_rate_fields _ _ _ _ _).2.1]
  exact check_failover_pool cd now r s

lemma process_record_window (N : Nat) (th cd now : ℚ) (r : LogRecord) (s : WatcherState) :
    (process_record N th cd now r s).1.request_window
      = windowAppend N s.request_window
          (decide (500 ≤ r.upstream_status ∧ r.upstream_status < 600)) := by
  simp only [process_record]
  rw [(check_error_rate_fields _ _ _ _ _).1]
  rw [(check_failover_fields cd now r s).1]

lemma process_record_pool_lpd (N : Nat) (th cd now : ℚ) (r : LogRecord) (s : WatcherState) :
    ((process_record N th cd now r s).1.current_pool,
     (process_record N th cd now r s).1.last_parsed_data)
      = poolTrack (s.current_pool, s.last_parsed_data) [r] := by
  simp only [process_record]
  rw [(check_error_rate_fields _ _ _ _ _).2.1, (check_error_rate_fields _ _ _ _ _).2.2.2.1]
  exact check_failover_pool_lpd cd now r s

lemma process_record_startup_silent (N : Nat) (th cd now : ℚ) (r : LogRecord) (s : WatcherState)
    (hst : s.is_startup = true) :
    (process_record N th cd now r s).2 = [] := by
  simp only [process_record]
  rw [check_failover_startup_silent cd now r s hst]
  rw [(check_error_rate_startup_silent _ _ _ _ _ (by
        show WatcherState.is_startup _ = true
        simp only [(check_failover_fields cd now r s).2.1, hst])).2]
  rfl

lemma poolTrack_cons (st : Option String × Option LogRecord) (r : LogRecord)
    (rs : List LogRecord) :
    poolTrack st (r :: rs) = poolTrack (poolTrack st [r]) rs := by
  rcases st with ⟨cp, lpd⟩
  cases cp with
  | none => simp [poolTrack]
  | some p =>
    by_cases he : r.pool = p
    · simp [poolTrack, he]
    · simp [poolTrack, he]

lemma processRecords_pool_lpd (N : Nat) (th cd : ℚ) (events : List (ℚ × LogRecord)) :
    ∀ s : WatcherState,
      ((processRecords N th cd events s).1.current_pool,
       (processRecords N th cd events s).1.last_parsed_data)
        = poolTrack (s.current_pool, s.last_parsed_data) (events.map Prod.snd) := by
  induction events with
  | nil => intro s; simp [processRecords, poolTrack]
  | cons e es ih =>
    intro s
    rw [processRecords]
    simp only [List.map_cons]
    rw [poolTrack_cons, ← process_record_pool_lpd N th cd e.1 e.2 s]
    exact ih _

lemma processRecords_startup (N : Nat) (th cd : ℚ) (events : List (ℚ × LogRecord)) :
    ∀ s₁ s₂ : WatcherState, s₁.is_startup = true →
      s₁.current_pool = s₂.current_pool → s₁.request_window = s₂.request_window →
      (processRecords N th cd events s₁).2 = []
      ∧ (processRecords N th cd events s₁).1.current_pool
          = (processRecords N th cd events s₂).1.current_pool
      ∧ (processRecords N th cd events s₁).1.request_window
          = (processRecords N th cd events s₂).1.request_window := by
  induction events with
  | nil =>
    intro s₁ s₂ h1 h2 h3
    exact ⟨rfl, h2, h3⟩
  | cons e es ih =>
    intro s₁ s₂ h1 h2 h3
    have hsil := process_record_startup_silent N th cd e.1 e.2 s₁ h1
    have his : (process_record N th cd e.1 e.2 s₁).1.is_startup = true := by
      rw [process_record_is_startup]; exact h1
    have hpool : (process_record N th cd e.1 e.2 s₁).1.current_pool
        = (process_record N th cd e.1 e.2 s₂).1.current_pool := by
      rw [process_record_pool, process_record_pool]
    have hwin : (process_record N th cd e.1 e.2 s₁).1.request_window
        = (process_record N th cd e.1 e.2 s₂).1.request_window := by
      rw [process_record_window, process_record_window, h3]
    obtain ⟨ha, hb, hc⟩ := ih _ _ his hpool hwin
    rw [processRecords, processRecords]
    exact ⟨by simp [hsil, ha], hb, hc⟩

lemma litMatches_iff (lit s : List Char) :
    litMatches lit s = true ↔ ∃ t, s = lit ++ t := by
  induction lit generalizing s with
  | nil => simp [litMatches]
  | cons a as ih =>
    cases s with
    | nil =>
      simp only [litMatches, Bool.false_eq_true, false_iff]
      rintro ⟨t, ht⟩
      exact absurd ht (by simp)
    | cons b bs =>
      simp only [litMatches, Bool.and_eq_true, decide_eq_true_eq, ih]
      constructor
      · rintro ⟨rfl, t, rfl⟩
        exact ⟨t, rfl⟩
      · rintro ⟨t, ht⟩
        rw [List.cons_append] at ht
        obtain ⟨h1, h2⟩ := List.cons.inj ht
        exact ⟨h1.symm, t, h2⟩

lemma searchTok_isSome_iff (lit : List Char) (cls : Char → Bool) (s : List Char) :
    (searchTok lit cls s).isSome = true ↔ containsTok lit cls s := by
  induction s with
  | nil =>
    simp only [searchTok, Option.isSome_none, Bool.false_eq_true, false_iff, containsTok]
    rintro ⟨pre, c, rest, h, -⟩
    have hlen := congrArg List.length h
    simp at hlen
    omega
  | cons a as ih =>
    rw [searchTok]
    by_cases hc : (litMatches lit (a :: as)
        && !(((a :: as).drop lit.length).takeWhile cls).isEmpty) = true
    · rw [if_pos hc]
      simp only [Option.isSome_some, true_iff]
      rw [Bool.and_eq_true] at hc
      obtain ⟨hm, hr⟩ := hc
      obtain ⟨t, ht⟩ := (litMatches_iff _ _).mp hm
      have hdrop : (a :: as).drop lit.length = t := by
        rw [ht]; exact List.drop_left lit t
      rw [hdrop] at hr
      cases t with
      | nil => simp at hr
      | cons c rest =>
        rw [List.takeWhile_cons] at hr
        by_cases hcls : cls c = true
        · exact ⟨[], c, rest, by simpa using ht, hcls⟩
        · rw [if_neg (by simp [hcls])] at hr
          simp at hr
    · rw [if_neg hc, ih]
      constructor
      · rintro ⟨pre, c, rest, heq, hcls⟩
        exact ⟨a :: pre, c, rest, by rw [heq]; rfl, hcls⟩
      · rintro ⟨pre, c, rest, heq, hcls⟩
        cases pre with
        | cons p pre =>
          rw [List.cons_append] at heq
          obtain ⟨-, h2⟩ := List.cons.inj heq
          exact ⟨pre, c, rest, h2, hcls⟩
        | nil =>
          exfalso
          apply hc
          rw [List.nil_append] at heq
          have hm : litMatches lit (a :: as) = true :=
            (litMatches_iff _ _).mpr ⟨c :: rest, heq⟩
          have hdrop : (a :: as).drop lit.length = c :: rest := by
            rw [heq]; exact List.drop_left lit (c :: rest)
          rw [Bool.and_eq_true]
          refine ⟨hm, ?_⟩
          rw [hdrop, List.takeWhile_cons, if_pos (by simp [hcls])]
          simp

/-- C1: for every sequence of outcomes appended to the sliding window the
window's length never exceeds the capacity `N`; once at least `N` outcomes
have been appended the window is exactly the last `N` outcomes in arrival
order; and an overflowing append to a full (nonempty-capacity) window
evicts exactly the oldest entry. -/
theorem window_bound_and_contents (N : Nat) (xs : List Bool) :
    (windowOfList N xs).length ≤ N
    ∧ (N ≤ xs.length → windowOfList N xs = xs.drop (xs.length - N))
    ∧ (∀ w : List Bool, ∀ b : Bool, w.length = N → 0 < N →
        windowAppend N w b = w.drop 1 ++ [b]) := by
  refine ⟨?_, fun _ => windowOfList_eq_drop N xs, ?_⟩
  · rw [windowOfList_eq_drop, List.length_drop]
    omega
  · intro w b hw hN
    unfold windowAppend
    rw [if_pos (by simp only [List.length_append, List.length_singleton]; omega)]
    have hlen : (w ++ [b]).length - N = 1 := by
      simp only [List.length_append, List.length_singleton]
      omega
    rw [hlen, List.drop_append_of_le_length (by rw [hw]; omega)]

/-- C1 witness: capacity 2, three appends. -/
theorem window_bound_and_contents_witness :
    (windowOfList 2 [true, false, true]).length ≤ 2
    ∧ windowOfList 2 [true, false, true]
        = [true, false, true].drop ([true, false, true].length - 2)
    ∧ windowAppend 2 [false, true] true = [false, true].drop 1 ++ [true] := by
  obtain ⟨h1, h2, h3⟩ := window_bound_and_contents 2 [true, false, true]
  exact ⟨h1, h2 (by decide), h3 [false, true] true (by decide) (by decide)⟩

/-- C2: below `min 50 N` samples `check_error_rate` returns no verdict and
no alert and leaves the state unchanged; at or above the floor the verdict
is exactly whether `errors / total` strictly exceeds the configured
percentage divided by 100, on the unrounded rational ratio; and an alert
is only ever produced when the floor is met and that strict comparison
holds. -/
theorem error_rate_floor_and_threshold (N : Nat) (pct cd now : ℚ) (s : WatcherState) :
    (s.request_window.length < min 50 N →
        check_error_rate N (thresholdOfPct pct) cd now s = (s, [], none))
    ∧ (¬ s.request_window.length < min 50 N →
        (check_error_rate N (thresholdOfPct pct) cd now s).2.2
          = some (decide ((s.request_window.count true : ℚ)
              / (s.request_window.length : ℚ) > pct / 100)))
    ∧ (∀ a, a ∈ (check_error_rate N (thresholdOfPct pct) cd now s).2.1 →
        ¬ s.request_window.length < min 50 N
        ∧ (s.request_window.count true : ℚ) / (s.request_window.length : ℚ) > pct / 100) := by
  refine ⟨fun h => check_error_rate_floor N _ cd now s h, ?_, ?_⟩
  · intro h
    unfold check_error_rate
    rw [if_neg h]
    by_cases hbr : errorRatio s > thresholdOfPct pct
    · rw [if_pos hbr]
      have hd : decide ((s.request_window.count true : ℚ)
          / (s.request_window.length : ℚ) > pct / 100) = true := decide_eq_true hbr
      rw [hd]
      split_ifs <;> rfl
    · rw [if_neg hbr]
      have hd : decide ((s.request_window.count true : ℚ)
          / (s.request_window.length : ℚ) > pct / 100) = false := decide_eq_false hbr
      rw [hd]
  · intro a ha
    unfold check_error_rate at ha
    by_cases h : s.request_window.length < min 50 N
    · rw [if_pos h] at ha
      simp at ha
    · rw [if_neg h] at ha
      refine ⟨h, ?_⟩
      by_cases hbr : errorRatio s > thresholdOfPct pct
      · exact hbr
      · rw [if_neg hbr] at ha
        simp at ha

/-- C2 witness: a 50-sample window of errors meets the floor and yields
the strict-comparison verdict. -/
theorem error_rate_floor_and_threshold_witness :
    (check_error_rate 200 (thresholdOfPct 2) 300 1000 fullErrWindowState).2.2
      = some (decide ((fullErrWindowState.request_window.count true : ℚ)
          / (fullErrWindowState.request_window.length : ℚ) > 2 / 100)) :=
  (error_rate_floor_and_threshold 200 2 300 1000 fullErrWindowState).2.1 (by decide)

/-- C3: for each alert kind with its own timestamp, two breach-eligible
events (post-startup, breach condition satisfied, the first one past its
cooldown) separated by less than the cooldown dispatch exactly one alert,
and separated by more than the cooldown dispatch two; the kind's
timestamp is stamped exactly when an alert fires, and the other kind's
timestamp is untouched. -/
theorem alert_cooldown_two_events :
    (∀ (cd t1 t2 : ℚ) (s : WatcherState) (p0 : String) (r1 r2 : LogRecord),
      s.is_startup = false → s.current_pool = some p0 →
      r1.pool ≠ p0 → r2.pool ≠ r1.pool →
      t1 - s.last_failover_alert > cd →
      ((check_failover cd t1 r1 s).1.last_failover_alert = t1
       ∧ (check_failover cd t1 r1 s).1.last_error_alert = s.last_error_alert
       ∧ (t2 - t1 < cd →
           ((check_failover cd t1 r1 s).2
             ++ (check_failover cd t2 r2 (check_failover cd t1 r1 s).1).2).length = 1
           ∧ (check_failover cd t2 r2 (check_failover cd t1 r1 s).1).1.last_failover_alert
               = t1)
       ∧ (t2 - t1 > cd →
           ((check_failover cd t1 r1 s).2
             ++ (check_failover cd t2 r2 (check_failover cd t1 r1 s).1).2).length = 2
           ∧ (check_failover cd t2 r2 (check_failover cd t1 r1 s).1).1.last_failover_alert
               = t2)))
    ∧ (∀ (N : Nat) (th cd t1 t2 : ℚ) (s : WatcherState),
      s.is_startup = false →
      ¬ s.request_window.length < min 50 N →
      errorRatio s > th →
      t1 - s.last_error_alert > cd →
      ((check_error_rate N th cd t1 s).1.last_error_alert = t1
       ∧ (check_error_rate N th cd t1 s).1.last_failover_alert = s.last_failover_alert
       ∧ (t2 - t1 < cd →
           ((check_error_rate N th cd t1 s).2.1
             ++ (check_error_rate N th cd t2 (check_error_rate N th cd t1 s).1).2.1).length
               = 1
           ∧ (check_error_rate N th cd t2
                (check_error_rate N th cd t1 s).1).1.last_error_alert = t1)
       ∧ (t2 - t1 > cd →
           ((check_error_rate N th cd t1 s).2.1
             ++ (check_error_rate N th cd t2 (check_error_rate N th cd t1 s).1).2.1).length
               = 2
           ∧ (check_error_rate N th cd t2
                (check_error_rate N th cd t1 s).1).1.last_error_alert = t2))) := by
  constructor
  · intro cd t1 t2 s p0 r1 r2 hst hcp hne1 hne2 hcool1
    rw [check_failover_fire cd t1 r1 s p0 hcp hne1 hst hcool1]
    refine ⟨rfl, rfl, ?_, ?_⟩
    · intro hlt
      rw [check_failover_suppressed cd t2 r2
        { s with current_pool := some r1.pool, last_parsed_data := some r1
               , last_failover_alert := t1 }
        r1.pool rfl hne2 hst (lt_asymm hlt)]
      exact ⟨rfl, rfl⟩
    · intro hgt
      rw [check_failover_fire cd t2 r2
        { s with current_pool := some r1.pool, last_parsed_data := some r1
               , last_failover_alert := t1 }
        r1.pool rfl hne2 hst hgt]
      exact ⟨rfl, rfl⟩
  · intro N th cd t1 t2 s hst hfloor hbr hcool1
    rw [check_error_rate_fire N th cd t1 s hfloor hbr hst hcool1]
    refine ⟨rfl, rfl, ?_, ?_⟩
    · intro hlt
      rw [check_error_rate_cooldown N th cd t2 { s with last_error_alert := t1 }
        hfloor hbr hst (lt_asymm hlt)]
      exact ⟨rfl, rfl⟩
    · intro hgt
      rw [check_error_rate_fire N th cd t2 { s with last_error_alert := t1 }
        hfloor hbr hst hgt]
      exact ⟨rfl, rfl⟩

/-- C3 witness: failover events 100 s apart under a 300 s cooldown give
one alert, 400 s apart give two; error-rate checks 100 s apart give one. -/
theorem alert_cooldown_two_events_witness :
    ((check_failover 300 400 recGreen liveBlueState).2
      ++ (check_failover 300 500 recBlue
            (check_failover 300 400 recGreen liveBlueState).1).2).length = 1
    ∧ ((check_failover 300 400 recGreen liveBlueState).2
      ++ (check_failover 300 800 recBlue
            (check_failover 300 400 recGreen liveBlueState).1).2).length = 2
    ∧ ((check_error_rate 200 (1/100) 300 400 liveErrWindowState).2.1
      ++ (check_error_rate 200 (1/100) 300 500
            (check_error_rate 200 (1/100) 300 400 liveErrWindowState).1).2.1).length = 1 := by
  obtain ⟨hf, he⟩ := alert_cooldown_two_events
  have hcool : (400 : ℚ) - liveBlueState.last_failover_alert > 300 := by
    show (400 : ℚ) - 0 > 300
    norm_num
  have hbr : errorRatio liveErrWindowState > 1 / 100 := by
    show ((List.replicate 50 true).count true : ℚ)
        / ((List.replicate 50 true).length : ℚ) > 1 / 100
    have hc : (List.replicate 50 true).count true = 50 := rfl
    have hl : (List.replicate 50 true).length = 50 := rfl
    rw [hc, hl]
    norm_num
  have hecool : (400 : ℚ) - liveErrWindowState.last_error_alert > 300 := by
    show (400 : ℚ) - 0 > 300
    norm_num
  have h1 := hf 300 400 500 liveBlueState "blue" recGreen recBlue rfl rfl
    (by decide) (by decide) hcool
  have h2 := hf 300 400 800 liveBlueState "blue" recGreen recBlue rfl rfl
    (by decide) (by decide) hcool
  have h3 := he 200 (1/100) 300 400 500 liveErrWindowState rfl
    (by decide) hbr hecool
  exact ⟨(h1.2.2.1 (by norm_num)).1, (h2.2.2.2 (by norm_num)).1, (h3.2.2.1 (by norm_num)).1⟩

/-- C4: while startup mode is active no alert is dispatched for any
sequence of records (pool changes and threshold breaches included), yet
the tracked pool and the sliding-window contents evolve exactly as they
would in live mode. -/
theorem startup_suppression (N : Nat) (th cd : ℚ) (events : List (ℚ × LogRecord))
    (s : WatcherState) (hst : s.is_startup = true) :
    (processRecords N th cd events s).2 = []
    ∧ (processRecords N th cd events s).1.current_pool
        = (processRecords N th cd events { s with is_startup := false }).1.current_pool
    ∧ (processRecords N th cd events s).1.request_window
        = (processRecords N th cd events { s with is_startup := false }).1.request_window :=
  processRecords_startup N th cd events s { s with is_startup := false } hst rfl rfl

/-- C4 witness: a pool change processed during startup. -/
theorem startup_suppression_witness :
    (processRecords 200 (thresholdOfPct 2) 300
        [((1000 : ℚ), recBlue), ((1000 : ℚ), recGreen)] initialState).2 = []
    ∧ (processRecords 200 (thresholdOfPct 2) 300
        [((1000 : ℚ), recBlue), ((1000 : ℚ), recGreen)] initialState).1.current_pool
        = (processRecords 200 (thresholdOfPct 2) 300
            [((1000 : ℚ), recBlue), ((1000 : ℚ), recGreen)]
            { initialState with is_startup := false }).1.current_pool
    ∧ (processRecords 200 (thresholdOfPct 2) 300
        [((1000 : ℚ), recBlue), ((1000 : ℚ), recGreen)] initialState).1.request_window
        = (processRecords 200 (thresholdOfPct 2) 300
            [((1000 : ℚ), recBlue), ((1000 : ℚ), recGreen)]
            { initialState with is_startup := false }).1.request_window :=
  startup_suppression 200 (thresholdOfPct 2) 300
    [((1000 : ℚ), recBlue), ((1000 : ℚ), recGreen)] initialState rfl

/-- C5: on every observed pool change the tracked pool becomes the new
pool, and an alert is dispatched exactly when the watcher is out of
startup mode and the cooldown has elapsed — suppression gates
notification, never the pool-tracking transition. -/
theorem pool_always_tracked (cd now : ℚ) (r : LogRecord) (s : WatcherState) (cp : String)
    (h : s.current_pool = some cp) (hne : r.pool ≠ cp) :
    (check_failover cd now r s).1.current_pool = some r.pool
    ∧ ((check_failover cd now r s).2 ≠ [] ↔
        (s.is_startup = false ∧ now - s.last_failover_alert > cd)) :=
  ⟨check_failover_pool cd now r s, check_failover_alert_iff cd now r s cp h hne⟩

/-- C5 witness: a pool change under an active cooldown still updates the
tracked pool while dispatching nothing. -/
theorem pool_always_tracked_witness :
    (check_failover 300 100 recGreen liveBlueState).1.current_pool = some recGreen.pool
    ∧ ((check_failover 300 100 recGreen liveBlueState).2 ≠ [] ↔
        (liveBlueState.is_startup = false
         ∧ 100 - liveBlueState.last_failover_alert > 300)) :=
  pool_always_tracked 300 100 recGreen liveBlueState "blue" rfl (by decide)

/-- C6: `parse_log_line` is a total function returning a record exactly
when the line contains both a pool token and an upstream-status token,
with each of the other fields matched independently and defaulting to
"unknown" / "0" when its own pattern is absent. -/
theorem parse_record_iff_tokens (line : List Char) :
    ((parse_log_line line).isSome = true ↔
        (containsTok poolLit isWordChar line ∧ containsTok statusLit Char.isDigit line))
    ∧ (∀ r, parse_log_line line = some r →
        (¬ containsTok releaseLit isRelChar line → r.release = "unknown")
        ∧ (¬ containsTok upstreamLit isUpstreamChar line → r.upstream = "unknown")
        ∧ (¬ containsTok requestTimeLit isNumChar line → r.request_time = "0")
        ∧ (¬ containsTok upstreamTimeLit isNumChar line → r.upstream_response_time = "0")) := by
  constructor
  · rw [← searchTok_isSome_iff, ← searchTok_isSome_iff]
    unfold parse_log_line
    cases hp : searchTok poolLit isWordChar line <;>
      cases hs : searchTok statusLit Char.isDigit line <;> simp
  · intro r hr
    unfold parse_log_line at hr
    cases hp : searchTok poolLit isWordChar line <;> rw [hp] at hr
    · simp at hr
    cases hs : searchTok statusLit Char.isDigit line <;> rw [hs] at hr
    · simp at hr
    refine ⟨?_, ?_, ?_, ?_⟩
    · intro hnc
      have hnone : searchTok releaseLit isRelChar line = none := by
        cases hrel : searchTok releaseLit isRelChar line with
        | none => rfl
        | some x =>
          exact absurd ((searchTok_isSome_iff _ _ _).mp (by rw [hrel]; rfl)) hnc
      rw [hnone] at hr
      simp only [Option.some.injEq] at hr
      rw [← hr]
    · intro hnc
      have hnone : searchTok upstreamLit isUpstreamChar line = none := by
        cases hrel : searchTok upstreamLit isUpstreamChar line with
        | none => rfl
        | some x =>
          exact absurd ((searchTok_isSome_iff _ _ _).mp (by rw [hrel]; rfl)) hnc
      rw [hnone] at hr
      simp only [Option.some.injEq] at hr
      rw [← hr]
    · intro hnc
      have hnone : searchTok requestTimeLit isNumChar line = none := by
        cases hrel : searchTok requestTimeLit isNumChar line with
        | none => rfl
        | some x =>
          exact absurd ((searchTok_isSome_iff _ _ _).mp (by rw [hrel]; rfl)) hnc
      rw [hnone] at hr
      simp only [Option.some.injEq] at hr
      rw [← hr]
    · intro hnc
      have hnone : searchTok upstreamTimeLit isNumChar line = none := by
        cases hrel : searchTok upstreamTimeLit isNumChar line with
        | none => rfl
        | some x =>
          exact absurd ((searchTok_isSome_iff _ _ _).mp (by rw [hrel]; rfl)) hnc
      rw [hnone] at hr
      simp only [Option.some.injEq] at hr
      rw [← hr]

/-- C6 witness: a minimal line with pool and status tokens only parses,
and every defaulted field behaves as stated. -/
theorem parse_record_iff_tokens_witness :
    (parse_log_line ("pool=blue upstream_status=500".toList)).isSome = true :=
  ((parse_record_iff_tokens _).1).mpr
    ⟨⟨[], 'b', "lue upstream_status=500".toList, by decide, by decide⟩,
     ⟨"pool=blue ".toList, '5', "00".toList, by decide, by decide⟩⟩

/-- C7 counterexample: the last-alert variables are initialized to the
integer 0, not a distinct "never" sentinel, and the very first
post-startup cooldown check passes purely because `now - 0` exceeds the
cooldown: a first-ever failover at clock 301 under a 300 s cooldown
dispatches immediately. -/
theorem cooldown_epoch_zero_counterexample :
    initialState.last_failover_alert = 0
    ∧ initialState.last_error_alert = 0
    ∧ (check_failover 300 301 recGreen liveBlueState).2.length = 1 := by
  refine ⟨rfl, rfl, ?_⟩
  rw [check_failover_fire 300 301 recGreen liveBlueState "blue" rfl (by decide) rfl
      (by show (301 : ℚ) - 0 > 300; norm_num)]
  rfl

/-- C7 amended: `last_failover_alert` and `last_error_alert` start at 0
(epoch zero), so the first cooldown check after startup passes whenever
the clock value exceeds `ALERT_COOLDOWN`. -/
theorem cooldown_epoch_zero_first_check (cd now : ℚ) (p : String) (r : LogRecord)
    (hne : r.pool ≠ p) (hnow : now > cd) :
    initialState.last_failover_alert = 0
    ∧ initialState.last_error_alert = 0
    ∧ (check_failover cd now r
        { initialState with is_startup := false, current_pool := some p }).2
        = [Alert.failover p r.pool r] := by
  refine ⟨rfl, rfl, ?_⟩
  rw [check_failover_fire cd now r
      { initialState with is_startup := false, current_pool := some p } p rfl hne rfl
      (by show now - 0 > cd; simpa using hnow)]

/-- C7 witness: clock 301, cooldown 300, first-ever failover fires. -/
theorem cooldown_epoch_zero_first_check_witness :
    (check_failover 300 301 recGreen
      { initialState with is_startup := false, current_pool := some "blue" }).2
      = [Alert.failover "blue" recGreen.pool recGreen] :=
  (cooldown_epoch_zero_first_check 300 301 "blue" recGreen (by decide) (by norm_num)).2.2

/-- C8: evaluating `process_new_lines` on a file ending in an
unterminated line shows the code consuming that line immediately — the
committed offset jumps to end of file, the truncated record
(`upstream_status=5`) enters the window — and when the remainder `00`
plus the terminator arrive, the completed pass parses nothing new, so the
true record with status 500 is never seen. -/
theorem unterminated_tail_line_consumed :
    c8file2 = c8file1 ++ "00\n".toList
    ∧ (process_new_lines 200 (thresholdOfPct 2) 300 1000 c8file1
        { initialState with is_startup := false }).1.file_position = c8file1.length
    ∧ (process_new_lines 200 (thresholdOfPct 2) 300 1000 c8file1
        { initialState with is_startup := false }).1.request_window = [false]
    ∧ (process_new_lines 200 (thresholdOfPct 2) 300 1000 c8file2
        (process_new_lines 200 (thresholdOfPct 2) 300 1000 c8file1
          { initialState with is_startup := false }).1).1.request_window = [false]
    ∧ parse_log_line c8file1
        = some { pool := "blue", release := "unknown", upstream_status := 5
               , upstream := "unknown", request_time := "0"
               , upstream_response_time := "0" }
    ∧ parse_log_line (pyStrip ("pool=blue upstream_status=500\n".toList))
        = some { pool := "blue", release := "unknown", upstream_status := 500
               , upstream := "unknown", request_time := "0"
               , upstream_response_time := "0" } := by
  refine ⟨rfl, rfl, rfl, rfl, rfl, rfl⟩

/-- C9 counterexample: with window capacity 1, two same-pool error
records are processed in live mode; both error-rate alerts are enriched
with the first record although the second record is the most recent
successfully parsed one at the second enrichment point. -/
theorem stale_enrichment_counterexample :
    ((processRecords 1 (2/100) 300
        [((1000 : ℚ), recErr "one"), ((2000 : ℚ), recErr "two")]
        { initialState with is_startup := false }).2.map enrichRecord)
      = [some (recErr "one"), some (recErr "one")]
    ∧ ([((1000 : ℚ), recErr "one"), ((2000 : ℚ), recErr "two")].map Prod.snd).getLast?
        = some (recErr "two")
    ∧ recErr "one" ≠ recErr "two" := by
  refine ⟨?_, rfl, by decide⟩
  norm_num [processRecords, process_record, check_failover, check_error_rate,
    windowAppend, errorRatio, recErr, initialState, enrichRecord,
    List.count_cons, List.count_nil]

/-- C9 amended: `last_parsed_data` is not the most recent successfully
parsed record; together with the tracked pool it equals the fold that
updates only on the first record and on records whose pool differs from
the tracked pool, so error-rate alert payloads can be enriched with a
stale record. -/
theorem last_parsed_tracks_pool_changes (N : Nat) (th cd : ℚ)
    (events : List (ℚ × LogRecord)) (s : WatcherState) :
    ((processRecords N th cd events s).1.current_pool,
     (processRecords N th cd events s).1.last_parsed_data)
      = poolTrack (s.current_pool, s.last_parsed_data) (events.map Prod.snd) :=
  processRecords_pool_lpd N th cd events s

/-- C10: `send_slack_alert` maps every sink outcome (webhook unset, any
HTTP status, raised exception) to a report without touching state; the
detector's state transition is identical for every outcome, the cooldown
timestamp is stamped at dispatch regardless of delivery failure, the
failed occurrence is attempted exactly once, and the next attempt happens
only at the next post-cooldown-eligible pool change. -/
theorem sink_failure_isolated (sink : SinkOutcome) (cd t1 t2 : ℚ) (r1 r2 : LogRecord)
    (s : WatcherState) (p0 : String)
    (hst : s.is_startup = false) (hcp : s.current_pool = some p0) (hne1 : r1.pool ≠ p0)
    (hcool : t1 - s.last_failover_alert > cd) :
    (check_failover_with_sink sink cd t1 r1 s).1 = (check_failover cd t1 r1 s).1
    ∧ (check_failover_with_sink sink cd t1 r1 s).1.last_failover_alert = t1
    ∧ (check_failover_with_sink sink cd t1 r1 s).2.length = 1
    ∧ (r2.pool ≠ r1.pool → ¬ t2 - t1 > cd →
        (check_failover_with_sink sink cd t2 r2
          (check_failover_with_sink sink cd t1 r1 s).1).2 = [])
    ∧ (r2.pool ≠ r1.pool → t2 - t1 > cd →
        (check_failover_with_sink sink cd t2 r2
          (check_failover_with_sink sink cd t1 r1 s).1).2.length = 1) := by
  rw [check_failover_with_sink_fire sink cd t1 r1 s p0 hcp hne1 hst hcool,
      check_failover_fire cd t1 r1 s p0 hcp hne1 hst hcool]
  refine ⟨rfl, rfl, rfl, ?_, ?_⟩
  · intro hne2 hcool2
    rw [check_failover_with_sink_suppressed sink cd t2 r2
      { s with current_pool := some r1.pool, last_parsed_data := some r1
             , last_failover_alert := t1 }
      r1.pool rfl hne2 hst hcool2]
  · intro hne2 hcool2
    rw [check_failover_with_sink_fire sink cd t2 r2
      { s with current_pool := some r1.pool, last_parsed_data := some r1
             , last_failover_alert := t1 }
      r1.pool rfl hne2 hst hcool2]
    rfl

/-- C10 witness: a raised transport exception at the first failover: the
state matches the sink-free model, the timestamp is consumed, and a pool
change 100 s later under the 300 s cooldown attempts nothing. -/
theorem sink_failure_isolated_witness :
    (check_failover_with_sink SinkOutcome.raised 300 400 recGreen liveBlueState).1
      = (check_failover 300 400 recGreen liveBlueState).1
    ∧ (check_failover_with_sink SinkOutcome.raised 300 400 recGreen liveBlueState).2.length
        = 1
    ∧ (check_failover_with_sink SinkOutcome.raised 300 500 recBlue
        (check_failover_with_sink SinkOutcome.raised 300 400 recGreen liveBlueState).1).2
        = [] := by
  have h := sink_failure_isolated SinkOutcome.raised 300 400 500 recGreen recBlue
    liveBlueState "blue" rfl rfl (by decide) (by show (400 : ℚ) - 0 > 300; norm_num)
  exact ⟨h.1, h.2.2.1, h.2.2.2.1 (by decide) (by norm_num)⟩

end Watcher
